import Mathlib

/-!
Verification development for the sdc-docker gateway sources.

The JavaScript sources are shallowly embedded:
* `lib/common.js` (`pollJob`, `waitForJob`, `writeToDockerRawStream`,
  `formatProgress`, `writeProgress`) as pure Lean functions; the
  timer-driven recursive poll loop becomes a fuel-indexed recursion over an
  explicit sequence of fetch results.
* `lib/endpoints/images.js` request handlers as functions from request data
  (with the external reference parser abstracted as a parameter) to an
  outcome that separates errors raised before any backend call from the
  backend invocation itself.
* The volume create/delete/list path is not among the sources (only its
  regression test is), so it is modelled from the spec's Resource Resolver
  contract; those definitions say so in their doc comments.
-/

namespace SdcDocker

/-! ## Job model (spec §3, `lib/common.js` pollJob/waitForJob) -/

/-- A JavaScript error value as it appears in a job step result: the model
keeps the one property the code reads (`message`, possibly absent). -/
structure JsError where
  message : Option String
  deriving Repr, DecidableEq

/-- One entry of a job's `chain_results` list; the code only reads its
`error` property. -/
structure StepResult where
  error : Option JsError
  deriving Repr, DecidableEq

/-- A workflow job as observed through `getJob`: an execution state string
(the code compares against the strings "succeeded" and "failed") and the
ordered `chain_results` list. -/
structure Job where
  execution : String
  chain_results : List StepResult
  deriving Repr, DecidableEq

/-- Result of one `getJob` call: either a fetch error (the `err` argument of
the callback, carried as its message) or a fetched job. -/
inductive FetchResult where
  | ferr (e : String)
  | fok (j : Job)
  deriving Repr, DecidableEq

/-- Poll interval in milliseconds: `var timeout = 1000` in `pollJob`. -/
def pollIntervalMs : Nat := 1000

/-- Attempt budget: `var limit = 720` in `pollJob`. -/
def pollLimit : Nat := 720

/-- Terminal outcome of the `pollJob` loop. `fetchError` is the
`cb(err)` taken when the error counter reaches 5; `jobDone` is
`cb(null, job)` for a job fetched in execution state "succeeded" or
"failed"; `timedOut` is `cb(new Error('polling for job timed out'), job)`;
`diverge` marks fuel exhaustion of the embedding (never reached with
enough fuel). -/
inductive PollOutcome where
  | fetchError (e : String)
  | jobDone (j : Job)
  | timedOut (j : Job)
  | diverge
  deriving Repr, DecidableEq

/-- The loop body of `pollJob` in `lib/common.js`, with the timer recursion
made explicit: `fetch n` is what the n-th `getJob` call (0-based) passes to
its callback, `attempts` and `errs` are the code's `attempts`/`errors`
counters sampled before the `attempts++` of the current call, and the
result records the outcome together with the final value of `attempts`
(the total number of `getJob` calls made). Each recursive call stands for
`setTimeout(poll, timeout)`, i.e. one fixed `pollIntervalMs` delay. -/
def pollAux (fetch : Nat → FetchResult) : Nat → Nat → Nat → PollOutcome × Nat
  | 0, attempts, _ => (PollOutcome.diverge, attempts)
  | fuel + 1, attempts, errs =>
    match fetch attempts with
    | FetchResult.ferr e =>
      if errs + 1 ≥ 5 then (PollOutcome.fetchError e, attempts + 1)
      else pollAux fetch fuel (attempts + 1) (errs + 1)
    | FetchResult.fok j =>
      if j.execution = "succeeded" then (PollOutcome.jobDone j, attempts + 1)
      else if j.execution = "failed" then (PollOutcome.jobDone j, attempts + 1)
      else if attempts + 1 > pollLimit then (PollOutcome.timedOut j, attempts + 1)
      else pollAux fetch fuel (attempts + 1) errs

/-- `pollJob` from `lib/common.js`: start the loop with both counters at 0. -/
def pollJob (fetch : Nat → FetchResult) (fuel : Nat) : PollOutcome × Nat :=
  pollAux fetch fuel 0 0

/-- Outcome of `waitForJob`: `ok` is the success callback `cb()`; `jobErr`
is `cb(new Error(errmsg))` built from the last chain result's error;
`pollFailed` propagates the fetch error `pollJob` failed with; `timedOut`
propagates its timeout error; `crash` marks the TypeError the code would
throw dereferencing `result.error` when `chain_results` is empty;
`diverge` marks fuel exhaustion of the embedding. -/
inductive WaitOutcome where
  | ok
  | jobErr (msg : String)
  | pollFailed (e : String)
  | timedOut
  | crash
  | diverge
  deriving Repr, DecidableEq

/-- Hexadecimal digit used by the JSON string escaper. -/
def hexDigit (n : Nat) : Char :=
  if n < 10 then Char.ofNat (48 + n) else Char.ofNat (87 + n)

/-- JSON escaping of one character, as `JSON.stringify` does it. -/
def escChar (c : Char) : String :=
  if c = '"' then "\\\""
  else if c = '\\' then "\\\\"
  else if c = '\n' then "\\n"
  else if c = '\r' then "\\r"
  else if c = '\t' then "\\t"
  else if c = Char.ofNat 8 then "\\b"
  else if c = Char.ofNat 12 then "\\f"
  else if c.toNat < 32 then
    "\\u00" ++ String.mk [hexDigit (c.toNat / 16), hexDigit (c.toNat % 16)]
  else String.singleton c

/-- `JSON.stringify` of a string value. -/
def jsonString (s : String) : String :=
  "\"" ++ String.join (s.toList.map escChar) ++ "\""

/-- `JSON.stringify(result.error)` for the modelled error values: an object
holding the `message` property when present, `\x7b\x7d` otherwise. -/
def JsError.stringify (e : JsError) : String :=
  match e.message with
  | some m => "\x7b\"message\":" ++ jsonString m ++ "\x7d"
  | none => "\x7b\x7d"

/-- `result.error.message || JSON.stringify(result.error)` from
`waitForJob`: JavaScript `||` falls through on a falsy message, so an
absent message and an empty-string message both yield the serialization. -/
def errmsgOf (e : JsError) : String :=
  match e.message with
  | some m => if m = "" then JsError.stringify e else m
  | none => JsError.stringify e

/-- `waitForJob` from `lib/common.js`: run `pollJob`, propagate its error
if any, otherwise pop the last `chain_results` entry and succeed exactly
when it carries no `error`. -/
def waitForJob (fetch : Nat → FetchResult) (fuel : Nat) : WaitOutcome :=
  match (pollJob fetch fuel).1 with
  | PollOutcome.fetchError e => WaitOutcome.pollFailed e
  | PollOutcome.timedOut _ => WaitOutcome.timedOut
  | PollOutcome.diverge => WaitOutcome.diverge
  | PollOutcome.jobDone j =>
    match j.chain_results.getLast? with
    | none => WaitOutcome.crash
    | some r =>
      match r.error with
      | some e => WaitOutcome.jobErr (errmsgOf e)
      | none => WaitOutcome.ok

/-! ## Poll loop step lemmas -/

/-- One poll step on a fetched job in a terminal execution state returns it. -/
theorem pollAux_terminal (fetch : Nat → FetchResult) (fuel a errs : Nat) (j : Job)
    (hf : fetch a = FetchResult.fok j)
    (ht : j.execution = "succeeded" ∨ j.execution = "failed") :
    pollAux fetch (fuel + 1) a errs = (PollOutcome.jobDone j, a + 1) := by
  rcases ht with h | h <;> simp [pollAux, hf, h]

/-- One poll step on a fetch error below the error cap continues polling
with both counters bumped. -/
theorem pollAux_errStep (fetch : Nat → FetchResult) (fuel a errs : Nat) (e : String)
    (hf : fetch a = FetchResult.ferr e) (he : errs + 1 < 5) :
    pollAux fetch (fuel + 1) a errs = pollAux fetch fuel (a + 1) (errs + 1) := by
  have h5 : ¬ (errs + 1 ≥ 5) := by omega
  simp [pollAux, hf, h5]

/-- One poll step on a fetch error with four errors already on the counter
fails immediately with that fetch error. -/
theorem pollAux_errFail (fetch : Nat → FetchResult) (fuel a : Nat) (e : String)
    (hf : fetch a = FetchResult.ferr e) :
    pollAux fetch (fuel + 1) a 4 = (PollOutcome.fetchError e, a + 1) := by
  simp [pollAux, hf]

/-- One poll step on a fetched non-terminal job within the attempt budget
continues polling with the error counter untouched. -/
theorem pollAux_nonterminal (fetch : Nat → FetchResult) (fuel a errs : Nat) (j : Job)
    (hf : fetch a = FetchResult.fok j)
    (h1 : j.execution ≠ "succeeded") (h2 : j.execution ≠ "failed")
    (ha : a + 1 ≤ pollLimit) :
    pollAux fetch (fuel + 1) a errs = pollAux fetch fuel (a + 1) errs := by
  have hb : ¬ (a + 1 > pollLimit) := by omega
  simp [pollAux, hf, h1, h2, hb]

/-- A poll loop that only ever fetches a fixed non-terminal job runs the
attempt counter up to the budget and times out on the first attempt past
it. -/
theorem pollAux_const_nonterminal (j : Job)
    (h1 : j.execution ≠ "succeeded") (h2 : j.execution ≠ "failed") :
    ∀ (fuel a errs : Nat), 1 ≤ fuel → a + fuel = pollLimit + 1 →
    pollAux (fun _ => FetchResult.fok j) fuel a errs
      = (PollOutcome.timedOut j, pollLimit + 1) := by
  intro fuel
  induction fuel with
  | zero => intro a errs h h'; omega
  | succ k ih =>
    intro a errs _ hsum
    by_cases hk : k = 0
    · subst hk
      have ha : a = pollLimit := by omega
      subst ha
      have hb : pollLimit + 1 > pollLimit := by omega
      simp [pollAux, h1, h2, hb]
    · have ha : a + 1 ≤ pollLimit := by omega
      rw [pollAux_nonterminal _ k a errs j rfl h1 h2 ha]
      exact ih (a + 1) errs (by omega) (by omega)

/-- Whenever the poll loop reports `jobDone`, the job it reports was
fetched in a terminal execution state. -/
theorem pollAux_jobDone_terminal (fetch : Nat → FetchResult) :
    ∀ (fuel a errs n : Nat) (j : Job),
    pollAux fetch fuel a errs = (PollOutcome.jobDone j, n) →
    j.execution = "succeeded" ∨ j.execution = "failed" := by
  intro fuel
  induction fuel with
  | zero => intro a errs n j h; simp [pollAux] at h
  | succ k ih =>
    intro a errs n j h
    rw [show k + 1 = k + 1 from rfl] at h
    simp only [pollAux] at h
    cases hf : fetch a with
    | ferr e =>
      rw [hf] at h
      simp only at h
      split at h
      · simp at h
      · exact ih (a + 1) (errs + 1) n j h
    | fok j0 =>
      rw [hf] at h
      simp only at h
      split at h
      · rename_i hs
        have : j0 = j := by simpa using congrArg Prod.fst h
        subst this
        exact Or.inl hs
      · split at h
        · rename_i hs
          have : j0 = j := by simpa using congrArg Prod.fst h
          subst this
          exact Or.inr hs
        · split at h
          · simp at h
          · exact ih (a + 1) errs n j h

/-- Whenever the poll loop reports `jobDone j`, `waitForJob` answers
according to the last entry of the chain results of `j` alone. -/
theorem waitForJob_of_jobDone (fetch : Nat → FetchResult) (fuel n : Nat)
    (j : Job) (r : StepResult)
    (hp : pollJob fetch fuel = (PollOutcome.jobDone j, n))
    (hr : j.chain_results.getLast? = some r) :
    waitForJob fetch fuel
      = (match r.error with
        | some e => WaitOutcome.jobErr (errmsgOf e)
        | none => WaitOutcome.ok) := by
  unfold waitForJob
  rw [hp]
  simp [hr]

/-! ## Claim theorems for the job orchestrator -/

/-- Claim C1 counterexample: 5 consecutive fetch errors followed by a successful
fetch of a terminal job do NOT yield the job result — `pollJob` counts
`errors >= 5` and fails with the underlying fetch error on the 5th error,
so the 6th call (the successful one) never happens and `waitForJob`
reports the fetch error instead of success. -/
theorem pollJob_five_errors_cex :
    waitForJob
      (fun i => if i < 5 then FetchResult.ferr "network hiccup"
        else FetchResult.fok ⟨"succeeded", [⟨none⟩]⟩) 721
      = WaitOutcome.pollFailed "network hiccup"
    ∧ pollJob
      (fun i => if i < 5 then FetchResult.ferr "network hiccup"
        else FetchResult.fok ⟨"succeeded", [⟨none⟩]⟩) 721
      = (PollOutcome.fetchError "network hiccup", 5) := by
  exact ⟨rfl, rfl⟩

/-- Claim C1 amended: `pollJob` tolerates up to 4 fetch errors, counted
cumulatively over the whole poll (the counter is never reset by a
successful fetch): 4 consecutive fetch errors followed by a successful
fetch of a terminal job still yield the job (on the 5th call); the 5th
cumulative fetch error — consecutive or not — fails immediately with the
underlying fetch error. -/
theorem pollJob_error_tolerance :
    (∀ (e : String) (j : Job),
      j.execution = "succeeded" ∨ j.execution = "failed" →
      pollJob (fun i => if i < 4 then FetchResult.ferr e else FetchResult.fok j) 721
        = (PollOutcome.jobDone j, 5))
    ∧ (∀ (fetch : Nat → FetchResult) (fuel a : Nat) (e : String),
      fetch a = FetchResult.ferr e →
      pollAux fetch (fuel + 1) a 4 = (PollOutcome.fetchError e, a + 1))
    ∧ pollJob
        (fun i => if i % 2 = 0 then FetchResult.ferr "transient"
          else FetchResult.fok ⟨"running", []⟩) 721
        = (PollOutcome.fetchError "transient", 9) := by
  refine ⟨?_, pollAux_errFail, rfl⟩
  intro e j ht
  show pollAux _ 721 0 0 = _
  rw [pollAux_errStep _ 720 0 0 e rfl (by omega),
    pollAux_errStep _ 719 1 1 e rfl (by omega),
    pollAux_errStep _ 718 2 2 e rfl (by omega),
    pollAux_errStep _ 717 3 3 e rfl (by omega)]
  exact pollAux_terminal _ 716 4 4 j rfl ht

/-- Claim C1 amended witness: concrete run of the first conjunct at a succeeded
job fetched after 4 fetch errors. -/
theorem pollJob_error_tolerance_witness :
    pollJob
      (fun i => if i < 4 then FetchResult.ferr "boom"
        else FetchResult.fok ⟨"succeeded", [⟨none⟩]⟩) 721
      = (PollOutcome.jobDone ⟨"succeeded", [⟨none⟩]⟩, 5) :=
  pollJob_error_tolerance.1 "boom" ⟨"succeeded", [⟨none⟩]⟩ (Or.inl rfl)

/-- Claim C5 counterexample: a job fetched in execution state "failed" whose
last chain result carries no `error` makes `waitForJob` report success,
not a failure carrying an error message. -/
theorem waitForJob_failed_no_error_cex :
    waitForJob (fun _ => FetchResult.fok ⟨"failed", [⟨none⟩]⟩) 1 = WaitOutcome.ok :=
  rfl

/-- Claim C5 amended: when the poll ends on a job in execution state "failed"
whose last chain-results entry carries an error, `waitForJob` fails with
that error's `message` — or with the JSON serialization of the error when
the message is absent or empty (`errmsgOf` is exactly
`result.error.message || JSON.stringify(result.error)`). -/
theorem waitForJob_failed_reports_last_error (fetch : Nat → FetchResult)
    (fuel n : Nat) (j : Job) (r : StepResult) (e : JsError)
    (hp : pollJob fetch fuel = (PollOutcome.jobDone j, n))
    (_hx : j.execution = "failed")
    (hr : j.chain_results.getLast? = some r)
    (he : r.error = some e) :
    waitForJob fetch fuel = WaitOutcome.jobErr (errmsgOf e) := by
  rw [waitForJob_of_jobDone fetch fuel n j r hp hr, he]

/-- Claim C5 amended witness: a failed job whose last step error has message
"disk full" makes `waitForJob` fail with exactly that message. -/
theorem waitForJob_failed_reports_last_error_witness :
    waitForJob (fun _ => FetchResult.fok ⟨"failed", [⟨some ⟨some "disk full"⟩⟩]⟩) 1
      = WaitOutcome.jobErr "disk full" :=
  waitForJob_failed_reports_last_error _ 1 1 ⟨"failed", [⟨some ⟨some "disk full"⟩⟩]⟩
    ⟨some ⟨some "disk full"⟩⟩ ⟨some "disk full"⟩ rfl rfl rfl rfl

/-- Claim C6: with fetches that keep succeeding on a job that never reaches a
terminal execution state, the poll loop runs on a fixed 1000 ms interval
with attempt budget 720 and fails with the timeout error on the first
attempt past the budget (the 721st `getJob` call), rather than polling
forever; `waitForJob` then reports the timeout. -/
theorem pollJob_timeout_bound (j : Job)
    (h1 : j.execution ≠ "succeeded") (h2 : j.execution ≠ "failed") :
    pollJob (fun _ => FetchResult.fok j) (pollLimit + 1)
      = (PollOutcome.timedOut j, pollLimit + 1)
    ∧ waitForJob (fun _ => FetchResult.fok j) (pollLimit + 1) = WaitOutcome.timedOut
    ∧ pollIntervalMs = 1000 ∧ pollLimit = 720 := by
  have hp : pollJob (fun _ => FetchResult.fok j) (pollLimit + 1)
      = (PollOutcome.timedOut j, pollLimit + 1) :=
    pollAux_const_nonterminal j h1 h2 (pollLimit + 1) 0 0 (by omega) (by omega)
  refine ⟨hp, ?_, rfl, rfl⟩
  unfold waitForJob
  rw [hp]

/-- Claim C6 witness: concrete run on a perpetually running job. -/
theorem pollJob_timeout_bound_witness :
    pollJob (fun _ => FetchResult.fok ⟨"running", []⟩) (pollLimit + 1)
      = (PollOutcome.timedOut ⟨"running", []⟩, pollLimit + 1)
    ∧ waitForJob (fun _ => FetchResult.fok ⟨"running", []⟩) (pollLimit + 1)
      = WaitOutcome.timedOut
    ∧ pollIntervalMs = 1000 ∧ pollLimit = 720 :=
  pollJob_timeout_bound ⟨"running", []⟩ (by decide) (by decide)

/-- Claim C10: when the poll ends with `jobDone j` — which forces `j` to have
been fetched in a terminal execution state — the `waitForJob` outcome is
determined solely by the last chain-results entry: success exactly when it
carries no error, and a failure carrying that error otherwise, regardless
of whether the execution state was "succeeded" or "failed". -/
theorem waitForJob_last_entry_decides (fetch : Nat → FetchResult)
    (fuel n : Nat) (j : Job) (r : StepResult)
    (hp : pollJob fetch fuel = (PollOutcome.jobDone j, n))
    (hr : j.chain_results.getLast? = some r) :
    (j.execution = "succeeded" ∨ j.execution = "failed")
    ∧ waitForJob fetch fuel
        = (match r.error with
          | some e => WaitOutcome.jobErr (errmsgOf e)
          | none => WaitOutcome.ok)
    ∧ (waitForJob fetch fuel = WaitOutcome.ok ↔ r.error = none) := by
  refine ⟨pollAux_jobDone_terminal fetch (fuel) 0 0 n j hp,
    waitForJob_of_jobDone fetch fuel n j r hp hr, ?_⟩
  rw [waitForJob_of_jobDone fetch fuel n j r hp hr]
  cases r.error <;> simp

/-- Claim C10 witness: a job fetched in execution state "succeeded" whose last
chain-results entry nevertheless carries an error is reported as a
failure carrying that error message. -/
theorem waitForJob_last_entry_decides_witness :
    ((("succeeded" : String) = "succeeded" ∨ ("succeeded" : String) = "failed")
    ∧ waitForJob (fun _ => FetchResult.fok ⟨"succeeded", [⟨some ⟨some "snap"⟩⟩]⟩) 1
        = WaitOutcome.jobErr "snap"
    ∧ (waitForJob (fun _ => FetchResult.fok ⟨"succeeded", [⟨some ⟨some "snap"⟩⟩]⟩) 1
        = WaitOutcome.ok ↔ (some (⟨some "snap"⟩ : JsError) : Option JsError) = none)) :=
  waitForJob_last_entry_decides _ 1 1 ⟨"succeeded", [⟨some ⟨some "snap"⟩⟩]⟩
    ⟨some ⟨some "snap"⟩⟩ rfl rfl

/-! ## Raw multiplexed stream frames (`lib/common.js` writeToDockerRawStream) -/

/-- Channel types of the raw docker stream, the keys of `STREAM_TYPES`. -/
inductive StreamType where
  | stdin
  | stdout
  | stderr
  deriving Repr, DecidableEq

/-- `STREAM_TYPES` from `lib/common.js`: stdin 0, stdout 1, stderr 2. -/
def STREAM_TYPES : StreamType → Nat
  | StreamType.stdin => 0
  | StreamType.stdout => 1
  | StreamType.stderr => 2

/-- Big-endian 4-byte encoding of a payload length, as
`message.writeUInt32BE(messageSize, 4)` lays it out (the node call demands
`messageSize < 2 ^ 32`). -/
def writeUInt32BE (n : Nat) : List Nat :=
  [n / 16777216 % 256, n / 65536 % 256, n / 256 % 256, n % 256]

/-- UTF-8 encoding of one Unicode code point, as node `Buffer.write`
emits it. -/
def utf8EncodeCp (c : Nat) : List Nat :=
  if c < 128 then [c]
  else if c < 2048 then [192 + c / 64, 128 + c % 64]
  else if c < 65536 then [224 + c / 4096, 128 + c / 64 % 64, 128 + c % 64]
  else [240 + c / 262144, 128 + c / 4096 % 64, 128 + c / 64 % 64, 128 + c % 64]

/-- UTF-8 encoding of a code-point sequence. -/
def utf8Encode : List Nat → List Nat
  | [] => []
  | c :: cs => utf8EncodeCp c ++ utf8Encode cs

/-- `Buffer.prototype.toString('utf8')` from node, as `data.toString()`
invokes it on the data buffer: WHATWG UTF-8 decoding of the byte sequence
into code points, emitting U+FFFD (65533) for invalid sequences and
resuming at the offending byte. Lead-byte classes: 00-7F one byte; C2-DF
plus one continuation; E0-EF plus two (E0 narrows the first continuation
to A0-BF, ED to 80-9F, excluding overlong forms and surrogates); F0-F4
plus three (F0 narrows to 90-BF, F4 to 80-8F); everything else is
invalid. -/
def utf8DecodeReplace : List Nat → List Nat
  | [] => []
  | b0 :: rest =>
    if b0 ≤ 127 then
      b0 :: utf8DecodeReplace rest
    else if 194 ≤ b0 ∧ b0 ≤ 223 then
      match rest with
      | [] => [65533]
      | b1 :: rest2 =>
        if 128 ≤ b1 ∧ b1 ≤ 191 then
          ((b0 - 192) * 64 + (b1 - 128)) :: utf8DecodeReplace rest2
        else
          65533 :: utf8DecodeReplace (b1 :: rest2)
    else if 224 ≤ b0 ∧ b0 ≤ 239 then
      match rest with
      | [] => [65533]
      | b1 :: rest2 =>
        if (if b0 = 224 then 160 else 128) ≤ b1
            ∧ b1 ≤ (if b0 = 237 then 159 else 191) then
          match rest2 with
          | [] => [65533]
          | b2 :: rest3 =>
            if 128 ≤ b2 ∧ b2 ≤ 191 then
              ((b0 - 224) * 4096 + (b1 - 128) * 64 + (b2 - 128))
                :: utf8DecodeReplace rest3
            else
              65533 :: utf8DecodeReplace (b2 :: rest3)
        else
          65533 :: utf8DecodeReplace (b1 :: rest2)
    else if 240 ≤ b0 ∧ b0 ≤ 244 then
      match rest with
      | [] => [65533]
      | b1 :: rest2 =>
        if (if b0 = 240 then 144 else 128) ≤ b1
            ∧ b1 ≤ (if b0 = 244 then 143 else 191) then
          match rest2 with
          | [] => [65533]
          | b2 :: rest3 =>
            if 128 ≤ b2 ∧ b2 ≤ 191 then
              match rest3 with
              | [] => [65533]
              | b3 :: rest4 =>
                if 128 ≤ b3 ∧ b3 ≤ 191 then
                  ((b0 - 240) * 262144 + (b1 - 128) * 4096
                      + (b2 - 128) * 64 + (b3 - 128))
                    :: utf8DecodeReplace rest4
                else
                  65533 :: utf8DecodeReplace (b3 :: rest4)
            else
              65533 :: utf8DecodeReplace (b2 :: rest3)
        else
          65533 :: utf8DecodeReplace (b1 :: rest2)
    else
      65533 :: utf8DecodeReplace rest

/-- Whether a byte sequence is valid UTF-8: the byte classes of
`utf8DecodeReplace` with every sequence complete and in range. -/
def validUtf8 : List Nat → Bool
  | [] => true
  | b0 :: rest =>
    if b0 ≤ 127 then validUtf8 rest
    else if 194 ≤ b0 ∧ b0 ≤ 223 then
      match rest with
      | [] => false
      | b1 :: rest2 => decide (128 ≤ b1 ∧ b1 ≤ 191) && validUtf8 rest2
    else if 224 ≤ b0 ∧ b0 ≤ 239 then
      match rest with
      | [] => false
      | b1 :: rest2 =>
        decide ((if b0 = 224 then 160 else 128) ≤ b1
            ∧ b1 ≤ (if b0 = 237 then 159 else 191)) &&
        match rest2 with
        | [] => false
        | b2 :: rest3 => decide (128 ≤ b2 ∧ b2 ≤ 191) && validUtf8 rest3
    else if 240 ≤ b0 ∧ b0 ≤ 244 then
      match rest with
      | [] => false
      | b1 :: rest2 =>
        decide ((if b0 = 240 then 144 else 128) ≤ b1
            ∧ b1 ≤ (if b0 = 244 then 143 else 191)) &&
        match rest2 with
        | [] => false
        | b2 :: rest3 =>
          decide (128 ≤ b2 ∧ b2 ≤ 191) &&
          match rest3 with
          | [] => false
          | b3 :: rest4 => decide (128 ≤ b3 ∧ b3 ≤ 191) && validUtf8 rest4
    else false

/-- `message.write(str, offset)` from node on a buffer with `room` bytes
left after the offset: UTF-8-encode the string into the buffer, writing
only characters whose complete encoding fits, and stop at the first one
that does not — partially encoded characters are never written. -/
def utf8WriteInto (room : Nat) : List Nat → List Nat
  | [] => []
  | c :: cs =>
    let e := utf8EncodeCp c
    if e.length ≤ room then e ++ utf8WriteInto (room - e.length) cs
    else []

/-- `writeToDockerRawStream` from `lib/common.js`, restricted to the bytes
it hands to `stream.write`. `new Buffer(8 + messageSize)` is uninitialized
memory, modelled by the `junk` map giving the pre-existing byte at each
payload offset. The header (channel code, three zero bytes, big-endian
`messageSize = data.length`) is written explicitly; the payload region is
`message.write(data.toString(), 8)`: the buffer decoded to a string with
U+FFFD replacement, re-encoded as UTF-8 into the `messageSize` bytes of
room, whole characters only — any slots it leaves unwritten keep their
junk bytes. (`toString`/`write` are modelled at code-point granularity:
the UTF-16 detour through the JS string maps astral code points to
surrogate pairs and back without changing the bytes written.) -/
def writeToDockerRawStream (junk : Nat → Nat) (t : StreamType) (data : List Nat) :
    List Nat :=
  let messageSize := data.length
  let written := utf8WriteInto messageSize (utf8DecodeReplace data)
  STREAM_TYPES t :: 0 :: 0 :: 0 ::
    (writeUInt32BE messageSize
      ++ (written ++ (List.range (messageSize - written.length)).map
          (fun i => junk (written.length + i))))

/-- Modelled from the spec: no decoder ships in the sources (clients
decode), so decoding follows §4.2 — read the 8-byte header, map the
channel code back (stdin=0, stdout=1, stderr=2), read the 4-byte
big-endian payload length, and reject the frame when the declared length
does not match the available payload. -/
def decodeRawStreamFrame (bytes : List Nat) : Option (StreamType × List Nat) :=
  match bytes with
  | t :: _ :: _ :: _ :: b0 :: b1 :: b2 :: b3 :: payload =>
    let ty : Option StreamType :=
      if t = 0 then some StreamType.stdin
      else if t = 1 then some StreamType.stdout
      else if t = 2 then some StreamType.stderr
      else none
    match ty with
    | none => none
    | some ty =>
      if payload.length = ((b0 * 256 + b1) * 256 + b2) * 256 + b3 then
        some (ty, payload)
      else none
  | _ => none

/-- The 4 header bytes written big-endian reassemble to the length. -/
theorem writeUInt32BE_reassemble (n : Nat) (h : n < 4294967296) :
    ((n / 16777216 % 256 * 256 + n / 65536 % 256) * 256 + n / 256 % 256) * 256 + n % 256
      = n := by
  omega

/-- Writing a string whose whole UTF-8 encoding fits the room writes it
completely. -/
theorem utf8WriteInto_of_fits : ∀ (cps : List Nat) (room : Nat),
    (utf8Encode cps).length ≤ room → utf8WriteInto room cps = utf8Encode cps := by
  intro cps
  induction cps with
  | nil => intro room _; rfl
  | cons c cs ih =>
    intro room h
    rw [utf8Encode, List.length_append] at h
    simp only [utf8WriteInto]
    rw [if_pos (by omega), ih (room - (utf8EncodeCp c).length) (by omega), utf8Encode]

/-- On a valid UTF-8 byte sequence, decoding to code points and
re-encoding is the identity (bounded by the sequence length for the
recursion). -/
theorem utf8_encode_decode_aux : ∀ (n : Nat) (data : List Nat), data.length ≤ n →
    validUtf8 data = true → utf8Encode (utf8DecodeReplace data) = data := by
  intro n
  induction n with
  | zero =>
    intro data hlen _
    cases data with
    | nil => rfl
    | cons b0 rest => simp at hlen
  | succ k ih =>
    intro data hlen hv
    cases data with
    | nil => rfl
    | cons b0 rest =>
      simp only [List.length_cons] at hlen
      by_cases h0 : b0 ≤ 127
      · have hv2 : validUtf8 rest = true := by
          rw [validUtf8.eq_def] at hv
          simpa [h0] using hv
        have henc : utf8EncodeCp b0 = [b0] := by
          rw [utf8EncodeCp, if_pos (by omega)]
        rw [utf8DecodeReplace.eq_def]
        simp [h0, utf8Encode, henc, ih rest (by omega) hv2]
      · by_cases h1 : 194 ≤ b0 ∧ b0 ≤ 223
        · cases rest with
          | nil =>
            rw [validUtf8.eq_def] at hv
            simp [h0, h1] at hv
          | cons b1 rest2 =>
            rw [validUtf8.eq_def] at hv
            simp only [if_neg h0, if_pos h1, Bool.and_eq_true,
              decide_eq_true_eq] at hv
            obtain ⟨hb1, hv2⟩ := hv
            have henc : utf8EncodeCp ((b0 - 192) * 64 + (b1 - 128)) = [b0, b1] := by
              rw [utf8EncodeCp, if_neg (by omega), if_pos (by omega)]
              have e1 : 192 + ((b0 - 192) * 64 + (b1 - 128)) / 64 = b0 := by omega
              have e2 : 128 + ((b0 - 192) * 64 + (b1 - 128)) % 64 = b1 := by omega
              rw [e1, e2]
            simp only [List.length_cons] at hlen
            rw [utf8DecodeReplace.eq_def]
            simp [h0, h1, hb1, utf8Encode, henc, ih rest2 (by omega) hv2]
        · by_cases h2 : 224 ≤ b0 ∧ b0 ≤ 239
          · cases rest with
            | nil =>
              rw [validUtf8.eq_def] at hv
              simp [h0, h1, h2] at hv
            | cons b1 rest2 =>
              cases rest2 with
              | nil =>
                rw [validUtf8.eq_def] at hv
                simp [h0, h1, h2] at hv
              | cons b2 rest3 =>
                rw [validUtf8.eq_def] at hv
                simp only [if_neg h0, if_neg h1, if_pos h2,
                  Bool.and_eq_true, decide_eq_true_eq] at hv
                obtain ⟨hb1, hb2, hv2⟩ := hv
                obtain ⟨hb1lo, hb1hi⟩ := hb1
                have hb1lo2 : 128 ≤ b1 := by split at hb1lo <;> omega
                have hb1hi2 : b1 ≤ 191 := by split at hb1hi <;> omega
                have hcp : 2048 ≤ (b0 - 224) * 4096 + (b1 - 128) * 64 + (b2 - 128) := by
                  by_cases hE0 : b0 = 224
                  · rw [if_pos hE0] at hb1lo; omega
                  · rw [if_neg hE0] at hb1lo; omega
                have henc : utf8EncodeCp ((b0 - 224) * 4096 + (b1 - 128) * 64 + (b2 - 128))
                    = [b0, b1, b2] := by
                  rw [utf8EncodeCp, if_neg (by omega), if_neg (by omega),
                    if_pos (by omega)]
                  have e1 : 224 + ((b0 - 224) * 4096 + (b1 - 128) * 64 + (b2 - 128)) / 4096
                      = b0 := by omega
                  have e2 : 128 + ((b0 - 224) * 4096 + (b1 - 128) * 64 + (b2 - 128)) / 64 % 64
                      = b1 := by omega
                  have e3 : 128 + ((b0 - 224) * 4096 + (b1 - 128) * 64 + (b2 - 128)) % 64
                      = b2 := by omega
                  rw [e1, e2, e3]
                simp only [List.length_cons] at hlen
                have hb1r : (if b0 = 224 then 160 else 128) ≤ b1
                    ∧ b1 ≤ if b0 = 237 then 159 else 191 := ⟨hb1lo, hb1hi⟩
                rw [utf8DecodeReplace.eq_def]
                simp [h0, h1, h2, hb1r, hb2, utf8Encode, henc,
                  ih rest3 (by omega) hv2]
          · by_cases h3 : 240 ≤ b0 ∧ b0 ≤ 244
            · cases rest with
              | nil =>
                rw [validUtf8.eq_def] at hv
                simp [h0, h1, h2, h3] at hv
              | cons b1 rest2 =>
                cases rest2 with
                | nil =>
                  rw [validUtf8.eq_def] at hv
                  simp [h0, h1, h2, h3] at hv
                | cons b2 rest3 =>
                  cases rest3 with
                  | nil =>
                    rw [validUtf8.eq_def] at hv
                    simp [h0, h1, h2, h3] at hv
                  | cons b3 rest4 =>
                    rw [validUtf8.eq_def] at hv
                    simp only [if_neg h0, if_neg h1, if_neg h2, if_pos h3,
                      Bool.and_eq_true, decide_eq_true_eq] at hv
                    obtain ⟨hb1, hb2, hb3, hv2⟩ := hv
                    obtain ⟨hb1lo, hb1hi⟩ := hb1
                    have hb1lo2 : 128 ≤ b1 := by split at hb1lo <;> omega
                    have hb1hi2 : b1 ≤ 191 := by split at hb1hi <;> omega
                    have hcp : 65536 ≤ (b0 - 240) * 262144 + (b1 - 128) * 4096
                        + (b2 - 128) * 64 + (b3 - 128) := by
                      by_cases hF0 : b0 = 240
                      · rw [if_pos hF0] at hb1lo; omega
                      · rw [if_neg hF0] at hb1lo; omega
                    have henc : utf8EncodeCp ((b0 - 240) * 262144 + (b1 - 128) * 4096
                          + (b2 - 128) * 64 + (b3 - 128))
                        = [b0, b1, b2, b3] := by
                      rw [utf8EncodeCp, if_neg (by omega), if_neg (by omega),
                        if_neg (by omega)]
                      have e1 : 240 + ((b0 - 240) * 262144 + (b1 - 128) * 4096
                          + (b2 - 128) * 64 + (b3 - 128)) / 262144 = b0 := by omega
                      have e2 : 128 + ((b0 - 240) * 262144 + (b1 - 128) * 4096
                          + (b2 - 128) * 64 + (b3 - 128)) / 4096 % 64 = b1 := by omega
                      have e3 : 128 + ((b0 - 240) * 262144 + (b1 - 128) * 4096
                          + (b2 - 128) * 64 + (b3 - 128)) / 64 % 64 = b2 := by omega
                      have e4 : 128 + ((b0 - 240) * 262144 + (b1 - 128) * 4096
                          + (b2 - 128) * 64 + (b3 - 128)) % 64 = b3 := by omega
                      rw [e1, e2, e3, e4]
                    simp only [List.length_cons] at hlen
                    have hb1r : (if b0 = 240 then 144 else 128) ≤ b1
                        ∧ b1 ≤ if b0 = 244 then 143 else 191 := ⟨hb1lo, hb1hi⟩
                    rw [utf8DecodeReplace.eq_def]
                    simp [h0, h1, h2, h3, hb1r, hb2, hb3,
                      utf8Encode, henc, ih rest4 (by omega) hv2]
            · rw [validUtf8.eq_def] at hv
              simp [h0, h1, h2, h3] at hv

/-- On a valid UTF-8 byte sequence, `data.toString()` then re-encoding
reproduces the bytes. -/
theorem utf8_encode_decode (data : List Nat) (hv : validUtf8 data = true) :
    utf8Encode (utf8DecodeReplace data) = data :=
  utf8_encode_decode_aux data.length data le_rfl hv

/-- A run of one ASCII byte is valid UTF-8 (used for large boundary
payloads). -/
theorem validUtf8_ascii_replicate (n b : Nat) (hb : b ≤ 127) :
    validUtf8 (List.replicate n b) = true := by
  induction n with
  | zero => rfl
  | succ k ih =>
    rw [List.replicate_succ, validUtf8.eq_def]
    simp [hb, ih]

/-- Claim C3 counterexample: the round trip fails on the length-1 payload
`[255]`, which is not valid UTF-8. `data.toString()` turns the byte into
U+FFFD, whose 3-byte UTF-8 encoding does not fit the 1 byte of room, so
`message.write` writes none of it: the frame declares 1 payload byte but
carries an uninitialized buffer byte (the junk map, instantiated here at
zeroed memory) instead of the payload, and decoding yields `[0]`, not
`[255]`. -/
theorem rawStream_nonUtf8_cex :
    writeToDockerRawStream (fun _ => 0) StreamType.stdout [255]
      = [1, 0, 0, 0, 0, 0, 0, 1, 0]
    ∧ utf8WriteInto 1 (utf8DecodeReplace [255]) = []
    ∧ decodeRawStreamFrame (writeToDockerRawStream (fun _ => 0) StreamType.stdout [255])
      = some (StreamType.stdout, [0])
    ∧ decodeRawStreamFrame (writeToDockerRawStream (fun _ => 0) StreamType.stdout [255])
      ≠ some (StreamType.stdout, [255])
    ∧ validUtf8 [255] = false := by
  refine ⟨rfl, rfl, rfl, by decide, rfl⟩

/-- Claim C3 amended: for every channel type, every uninitialized-buffer
state and every payload below `2 ^ 32` bytes that is valid UTF-8 — so the
`data.toString()` / `message.write` re-encoding the code performs is the
identity on it, which holds in particular for ASCII payloads of lengths
0, 1 and any large boundary value — the encoded frame is the 8-byte
header (channel code, three zero bytes, big-endian payload length)
followed by exactly that many payload bytes, and decoding recovers the
exact (channel type, payload) pair. Payloads that are not valid UTF-8 are
mangled or truncated under an unchanged declared length
(`rawStream_nonUtf8_cex`). -/
theorem rawStream_roundtrip (junk : Nat → Nat) (t : StreamType) (data : List Nat)
    (hv : validUtf8 data = true) (h : data.length < 4294967296) :
    writeToDockerRawStream junk t data
        = STREAM_TYPES t :: 0 :: 0 :: 0 :: (writeUInt32BE data.length ++ data)
    ∧ decodeRawStreamFrame (writeToDockerRawStream junk t data) = some (t, data)
    ∧ (writeToDockerRawStream junk t data).length = 8 + data.length := by
  have he := utf8_encode_decode data hv
  have hw : utf8WriteInto data.length (utf8DecodeReplace data) = data := by
    rw [utf8WriteInto_of_fits _ _ (le_of_eq (congrArg List.length he)), he]
  have hframe : writeToDockerRawStream junk t data
      = STREAM_TYPES t :: 0 :: 0 :: 0 :: (writeUInt32BE data.length ++ data) := by
    simp only [writeToDockerRawStream, hw]
    simp
  refine ⟨hframe, ?_, ?_⟩
  · rw [hframe]
    cases t <;>
      simp [writeUInt32BE, decodeRawStreamFrame, STREAM_TYPES,
        writeUInt32BE_reassemble data.length h]
  · rw [hframe]
    simp [writeUInt32BE]
    omega

/-- Claim C3 amended witness: concrete round trips at payload lengths 0, 1
and the large boundary length 70000 (all ASCII, hence valid UTF-8), on
zeroed buffer memory. -/
theorem rawStream_roundtrip_witness :
    decodeRawStreamFrame (writeToDockerRawStream (fun _ => 0) StreamType.stdout []) =
      some (StreamType.stdout, [])
    ∧ decodeRawStreamFrame (writeToDockerRawStream (fun _ => 0) StreamType.stderr [104]) =
      some (StreamType.stderr, [104])
    ∧ decodeRawStreamFrame
        (writeToDockerRawStream (fun _ => 0) StreamType.stdin (List.replicate 70000 7)) =
      some (StreamType.stdin, List.replicate 70000 7) :=
  ⟨(rawStream_roundtrip (fun _ => 0) StreamType.stdout [] (by decide) (by decide)).2.1,
   (rawStream_roundtrip (fun _ => 0) StreamType.stderr [104] (by decide) (by decide)).2.1,
   (rawStream_roundtrip (fun _ => 0) StreamType.stdin (List.replicate 70000 7)
     (validUtf8_ascii_replicate 70000 7 (by decide))
     (by rw [List.length_replicate]; norm_num)).2.1⟩

/-! ## Progress stream (`lib/common.js` formatProgress/writeProgress and
`lib/endpoints/images.js` imagePush) -/

/-- The argument bag handed to `formatProgress`/`writeProgress`: an
optional resource identifier, an optional status text and an optional
detail object; `none` stands for an absent (undefined) property. Detail
objects are modelled as association lists with the numeric fields the
docker progress protocol carries. -/
structure ProgressArgs where
  id : Option String
  status : Option String
  progressDetail : Option (List (String × Nat))
  deriving Repr, DecidableEq

/-- The object `formatProgress` builds and `JSON.stringify` serializes:
properties `id`, `status` and `progressDetail` in that insertion order. -/
structure ProgressMsg where
  id : String
  status : Option String
  progressDetail : Option (List (String × Nat))
  deriving Repr, DecidableEq

/-- `(args.id && args.id.substr(0, 12)) || ''` from `formatProgress`: an
absent or empty id is falsy and yields the empty string, otherwise the
first 12 characters. -/
def progressId (id : Option String) : String :=
  match id with
  | some s => if s = "" then "" else s.take 12
  | none => ""

/-- `formatProgress` from `lib/common.js`: truncated id, `status` and
`progressDetail` copied through. -/
def formatProgress (args : ProgressArgs) : ProgressMsg where
  id := progressId args.id
  status := args.status
  progressDetail := args.progressDetail

/-- `JSON.stringify` of a detail object. -/
def renderDetail (d : List (String × Nat)) : String :=
  "\x7b" ++ String.intercalate ","
    (d.map (fun kv => jsonString kv.1 ++ ":" ++ toString kv.2)) ++ "\x7d"

/-- `JSON.stringify` of a `ProgressMsg`: compact object notation, keys in
insertion order, properties holding `undefined` omitted. The `id`
property is always a defined string, so it comes first and later members
are comma-prefixed. -/
def stringifyProgress (m : ProgressMsg) : String :=
  "\x7b\"id\":" ++ jsonString m.id
    ++ (match m.status with
        | some s => ",\"status\":" ++ jsonString s
        | none => "")
    ++ (match m.progressDetail with
        | some d => ",\"progressDetail\":" ++ renderDetail d
        | none => "")
    ++ "\x7d"

/-- The object `writeProgress` actually serializes: a falsy
`progressDetail` is replaced by the empty object before `formatProgress`
runs. -/
def writeProgressMsg (args : ProgressArgs) : ProgressMsg :=
  formatProgress { args with progressDetail := some (args.progressDetail.getD []) }

/-- `writeProgress` from `lib/common.js` on a response modelled as the
list of chunks written so far: one `res.write` appending exactly the
serialized event, nothing else. -/
def writeProgress (res : List String) (progress : ProgressArgs) : List String :=
  res ++ [stringifyProgress (writeProgressMsg progress)]

/-- The serialization of the `msgPayload` status object `imagePush` builds
for a repository canonical name. -/
def pushStatusJson (canonicalName : String) : String :=
  "\x7b\"status\":"
    ++ jsonString ("The push refers to a repository [" ++ canonicalName ++ "]")
    ++ "\x7d"

/-- The first chunk `imagePush` writes
(`res.write(JSON.stringify(msgPayload) + '\r\n')` in
`lib/endpoints/images.js`): the serialized status object with an explicit
CRLF appended. -/
def imagePushPreamble (canonicalName : String) : String :=
  pushStatusJson canonicalName ++ "\r\n"

/-- Rendering a progress object whose detail is present: the
`progressDetail` member always appears in the compact serialization. -/
theorem stringifyProgress_detail_present (i : String) (st : Option String)
    (d : List (String × Nat)) :
    stringifyProgress ⟨i, st, some d⟩
      = "\x7b\"id\":" ++ jsonString i
        ++ (match st with
            | some s => ",\"status\":" ++ jsonString s
            | none => "")
        ++ (",\"progressDetail\":" ++ renderDetail d) ++ "\x7d" := by
  cases st <;> rfl

/-- The JavaScript truthiness dance on the id coincides with plain
truncation of the (defaulted) identifier. -/
theorem progressId_eq (i : Option String) : progressId i = (i.getD "").take 12 := by
  cases i with
  | none => rfl
  | some s =>
    by_cases hs : s = ""
    · subst hs; rfl
    · simp [progressId, hs]

/-- The object `writeProgress` hands to `JSON.stringify`, componentwise. -/
theorem writeProgressMsg_eq (args : ProgressArgs) :
    writeProgressMsg args
      = ⟨(args.id.getD "").take 12, args.status,
        some (args.progressDetail.getD [])⟩ := by
  simp [writeProgressMsg, formatProgress, progressId_eq]

/-- Claim C4: the object `writeProgress` serializes always has `id` equal to the
supplied identifier truncated to its first 12 characters (empty string
when absent), `status` equal to the supplied status, and `progressDetail`
present as an object — the supplied one, or the empty object when none
was supplied — and the serialized JSON therefore always contains the
`progressDetail` member, never omitting it. -/
theorem writeProgress_serializes_fields (args : ProgressArgs) :
    (writeProgressMsg args).id = (args.id.getD "").take 12
    ∧ (writeProgressMsg args).status = args.status
    ∧ (writeProgressMsg args).progressDetail = some (args.progressDetail.getD [])
    ∧ stringifyProgress (writeProgressMsg args)
        = "\x7b\"id\":" ++ jsonString ((args.id.getD "").take 12)
          ++ (match args.status with
              | some s => ",\"status\":" ++ jsonString s
              | none => "")
          ++ (",\"progressDetail\":" ++ renderDetail (args.progressDetail.getD []))
          ++ "\x7d"
    ∧ writeProgress [] args = [stringifyProgress (writeProgressMsg args)] := by
  have h := writeProgressMsg_eq args
  refine ⟨by rw [h], by rw [h], by rw [h], ?_, rfl⟩
  rw [h, stringifyProgress_detail_present]

/-- Claim C7 counterexample: the first event `imagePush` writes on the push
stream is not the bare serialized JSON object — the handler appends a
CRLF delimiter to it, so consecutive events on a push stream are not
written without an added delimiter/newline. -/
theorem imagePush_preamble_crlf_cex :
    imagePushPreamble "busybox"
      = "\x7b\"status\":\"The push refers to a repository [busybox]\"\x7d\r\n"
    ∧ imagePushPreamble "busybox"
      ≠ "\x7b\"status\":\"The push refers to a repository [busybox]\"\x7d" := by
  constructor
  · decide
  · decide

/-- Claim C7 amended: every event sent through `writeProgress` is written as
exactly one chunk holding exactly its serialized JSON object — one flush
per event, no delimiter or newline added between consecutive events — but
the initial repository-status message of `imagePush` is the exception: it
is written with a trailing CRLF appended. -/
theorem writeProgress_undelimited (res : List String) (events : List ProgressArgs)
    (canonicalName : String) :
    events.foldl writeProgress res
      = res ++ events.map (fun a => stringifyProgress (writeProgressMsg a))
    ∧ (events.foldl writeProgress res).length = res.length + events.length
    ∧ imagePushPreamble canonicalName = pushStatusJson canonicalName ++ "\r\n" := by
  refine ⟨?_, ?_, rfl⟩
  · induction events generalizing res with
    | nil => simp
    | cons a t ih => simp [writeProgress, ih]
  · induction events generalizing res with
    | nil => simp
    | cons a t ih => simp [writeProgress, ih]; omega

/-! ## Image endpoints (`lib/endpoints/images.js`) -/

/-- The error classes from `lib/errors.js` as the image handlers construct
them, told apart by constructor. -/
inductive ApiError where
  | DockerError (msg : String)
  | ValidationError (msg : String)
  | NotImplementedError (what : String)
  | ResourceNotFoundError (msg : String)
  deriving Repr, DecidableEq

/-- Modelled from the spec: `lib/errors.js` is not among the sources, so
the HTTP status of each error class follows the taxonomy of §7 —
`ValidationError` 4xx (400), `ResourceNotFoundError` 404,
`NotImplementedError` 501, and `DockerError`, the generic wrapper, the
"unexpected failure → generic internal error" case (500). -/
def ApiError.statusCode : ApiError → Nat
  | ApiError.DockerError _ => 500
  | ApiError.ValidationError _ => 400
  | ApiError.NotImplementedError _ => 501
  | ApiError.ResourceNotFoundError _ => 404

/-- A parsed repo/tag/digest reference, as `drc.parseRepoAndRef` and
`drc.parseRepoAndTag` (external `docker-registry-client`) return it —
only the fields the handlers read. -/
structure RepoAndRef where
  canonicalName : String
  tag : String
  digest : Option String
  deriving Repr, DecidableEq

/-- A parsed repo as `drc.parseRepo` returns it — only the fields
`imageSearch` reads. -/
structure Repo where
  official : Bool
  localName : String
  remoteName : String
  canonicalName : String
  deriving Repr, DecidableEq

/-- `Error.prototype.toString()` of a parse error whose name is "Error",
as `e.toString()` renders it in `imageCreate`. -/
def jsErrorToString (message : String) : String :=
  if message = "" then "Error" else "Error: " ++ message

/-- The query string of `POST /images/create`: `fromSrc`, `fromImage` and
`tag` (absent properties are `none`; `fromImage` is the string the parser
receives). -/
structure CreateQuery where
  fromSrc : Option String
  fromImage : String
  tag : Option String
  deriving Repr, DecidableEq

/-- Outcome of `imageCreate`: an error handed to `next(...)` before any
backend work, or the backend pull invoked with the final reference
(`req.backend.pullImage` is the only mutation the handler performs). -/
inductive CreateOutcome where
  | err (e : ApiError)
  | pull (rat : RepoAndRef)
  deriving Repr, DecidableEq

/-- `imageCreate` from `lib/endpoints/images.js`, with the external
reference parser abstracted: a defined `fromSrc` reports
NotImplementedError before anything else; a parse failure is wrapped in
`errors.DockerError(e, e.toString())` — not ValidationError; the
`docker pull -a` shape reports NotImplementedError; a truthy `tag` query
overrides the parsed tag (as a digest when it starts with "sha256:");
otherwise the backend pull runs with the final reference. -/
def imageCreate (parse : String → Except String RepoAndRef) (q : CreateQuery) :
    CreateOutcome :=
  if q.fromSrc.isSome then
    CreateOutcome.err (ApiError.NotImplementedError "image create")
  else
    match parse q.fromImage with
    | Except.error e => CreateOutcome.err (ApiError.DockerError (jsErrorToString e))
    | Except.ok rat =>
      let tagTruthy : Bool := match q.tag with
        | some t => t ≠ ""
        | none => false
      let all : Bool := !tagTruthy && (rat.tag != "") && (rat.tag == "latest")
        && !(q.fromImage.endsWith ":latest")
      if all then CreateOutcome.err (ApiError.NotImplementedError "docker pull -a")
      else
        let rat2 : RepoAndRef := match q.tag with
          | some t =>
            if t = "" then rat
            else if t.startsWith "sha256:" then { rat with digest := some t, tag := "" }
            else { rat with tag := t }
          | none => rat
        CreateOutcome.pull rat2

/-- The reference-parsing stage of `imagePush`
(`drc.parseRepoAndTag(req.params.name)`): a parse failure is wrapped in
`errors.DockerError(e, e.message)` — not ValidationError. -/
def imagePushParse (parse : String → Except String RepoAndRef) (name : String) :
    Except ApiError RepoAndRef :=
  match parse name with
  | Except.error e => Except.error (ApiError.DockerError e)
  | Except.ok rat => Except.ok rat

/-- The `repoAndTag` string `imageTag` builds:
`req.query.repo || ''` plus `':' + req.query.tag` when the tag is truthy. -/
def repoAndTagOf (repo tag : Option String) : String :=
  (repo.getD "") ++ (match tag with
    | some t => if t = "" then "" else ":" ++ t
    | none => "")

/-- The reference-validation stage of `imageTag`
(`drc.parseRepoAndTag(repoAndTag)`): a parse failure is wrapped in
`errors.DockerError(e, e.message)` — not ValidationError. -/
def imageTag (parse : String → Except String RepoAndRef)
    (repo tag : Option String) : Except ApiError Unit :=
  match parse (repoAndTagOf repo tag) with
  | Except.error e => Except.error (ApiError.DockerError e)
  | Except.ok _ => Except.ok ()

/-- Outcome of `imageSearch` up to the registry call: an error handed to
`next`, or the search term handed to `regClient.search`. -/
inductive SearchOutcome where
  | err (e : ApiError)
  | searchTerm (term : String)
  deriving Repr, DecidableEq

/-- `imageSearch` from `lib/endpoints/images.js`: a parse failure of the
search term is wrapped in `errors.ValidationError(parseErr,
parseErr.message)`; otherwise the term is the local name for the official
index and the remote name otherwise. -/
def imageSearch (parse : String → Except String Repo) (term : String) :
    SearchOutcome :=
  match parse term with
  | Except.error e => SearchOutcome.err (ApiError.ValidationError e)
  | Except.ok repo =>
    SearchOutcome.searchTerm (if repo.official then repo.localName else repo.remoteName)

/-- `imageChanges` from `lib/endpoints/images.js`: unconditionally
`next(new errors.NotImplementedError('image changes'))`. -/
def imageChanges (_name : String) : Except ApiError Unit :=
  Except.error (ApiError.NotImplementedError "image changes")

/-- `imageGet` from `lib/endpoints/images.js`: unconditionally
`next(new errors.NotImplementedError('image get'))`. -/
def imageGet (_name : String) : Except ApiError Unit :=
  Except.error (ApiError.NotImplementedError "image get")

/-- `imageLoad` from `lib/endpoints/images.js`: unconditionally
`next(new errors.NotImplementedError('image load'))`. -/
def imageLoad (_name : String) : Except ApiError Unit :=
  Except.error (ApiError.NotImplementedError "image load")

/-- Claim C8 counterexample: on a malformed reference, `imageCreate` (and the
push/tag parse stages) raise `DockerError` — status 500 under the spec's
taxonomy — not `ValidationError` 4xx; only `imageSearch` raises
`ValidationError`. -/
theorem refParse_not_validation_cex :
    imageCreate (fun _ => Except.error "invalid reference format")
        { fromSrc := none, fromImage := "UPPER//bad::", tag := none }
      = CreateOutcome.err (ApiError.DockerError "Error: invalid reference format")
    ∧ (ApiError.DockerError "Error: invalid reference format").statusCode = 500
    ∧ ApiError.DockerError "Error: invalid reference format"
        ≠ ApiError.ValidationError "Error: invalid reference format"
    ∧ imagePushParse (fun _ => Except.error "invalid reference format") "UPPER//bad::"
      = Except.error (ApiError.DockerError "invalid reference format")
    ∧ imageTag (fun _ => Except.error "invalid reference format")
        (some "UPPER//bad::") none
      = Except.error (ApiError.DockerError "invalid reference format") := by
  refine ⟨rfl, rfl, by decide, rfl, rfl⟩

/-- Claim C8 amended: a malformed reference is wrapped in `ValidationError`
(400) only by `imageSearch`; `imageCreate`, `imagePush` and `imageTag`
wrap the parse error in the generic `DockerError` (500 under the spec's
taxonomy) instead. -/
theorem refParse_error_classes
    (parse : String → Except String RepoAndRef)
    (rparse : String → Except String Repo)
    (q : CreateQuery) (name term : String) (repo tag : Option String)
    (m1 m2 m3 m4 : String)
    (hsrc : q.fromSrc = none)
    (h1 : parse q.fromImage = Except.error m1)
    (h2 : parse name = Except.error m2)
    (h3 : parse (repoAndTagOf repo tag) = Except.error m3)
    (h4 : rparse term = Except.error m4) :
    imageCreate parse q
      = CreateOutcome.err (ApiError.DockerError (jsErrorToString m1))
    ∧ imagePushParse parse name = Except.error (ApiError.DockerError m2)
    ∧ imageTag parse repo tag = Except.error (ApiError.DockerError m3)
    ∧ imageSearch rparse term = SearchOutcome.err (ApiError.ValidationError m4)
    ∧ (ApiError.DockerError m1).statusCode = 500
    ∧ (ApiError.ValidationError m4).statusCode = 400 := by
  refine ⟨?_, ?_, ?_, ?_, rfl, rfl⟩
  · simp [imageCreate, hsrc, h1]
  · simp [imagePushParse, h2]
  · simp [imageTag, h3]
  · simp [imageSearch, h4]

/-- Claim C8 amended witness: concrete failing parses on every endpoint. -/
theorem refParse_error_classes_witness :
    imageCreate (fun _ => Except.error "bad ref")
        { fromSrc := none, fromImage := "x", tag := none }
      = CreateOutcome.err (ApiError.DockerError (jsErrorToString "bad ref"))
    ∧ imagePushParse (fun _ => Except.error "bad ref") "x"
      = Except.error (ApiError.DockerError "bad ref")
    ∧ imageTag (fun _ => Except.error "bad ref") (some "x") none
      = Except.error (ApiError.DockerError "bad ref")
    ∧ imageSearch (fun _ => Except.error "bad ref") "x"
      = SearchOutcome.err (ApiError.ValidationError "bad ref")
    ∧ (ApiError.DockerError "bad ref").statusCode = 500
    ∧ (ApiError.ValidationError "bad ref").statusCode = 400 :=
  refParse_error_classes (fun _ => Except.error "bad ref")
    (fun _ => Except.error "bad ref")
    { fromSrc := none, fromImage := "x", tag := none } "x" "x" (some "x") none
    "bad ref" "bad ref" "bad ref" "bad ref" rfl rfl rfl rfl rfl

/-- Claim C9: the unsupported verbs — image create from a source archive
(`fromSrc` defined), image changes, image get and image load — all report
`NotImplementedError` (status 501 under the spec's taxonomy), and none of
them reaches the backend: `imageCreate` with `fromSrc` set never produces
a `pull` outcome, and the other three handlers are constant errors. -/
theorem notImplemented_verbs (parse : String → Except String RepoAndRef)
    (q : CreateQuery) (s n1 n2 n3 : String)
    (hsrc : q.fromSrc = some s) :
    imageCreate parse q = CreateOutcome.err (ApiError.NotImplementedError "image create")
    ∧ imageChanges n1 = Except.error (ApiError.NotImplementedError "image changes")
    ∧ imageGet n2 = Except.error (ApiError.NotImplementedError "image get")
    ∧ imageLoad n3 = Except.error (ApiError.NotImplementedError "image load")
    ∧ (∀ rat, imageCreate parse q ≠ CreateOutcome.pull rat)
    ∧ (ApiError.NotImplementedError "image create").statusCode = 501
    ∧ (ApiError.NotImplementedError "image changes").statusCode = 501
    ∧ (ApiError.NotImplementedError "image get").statusCode = 501
    ∧ (ApiError.NotImplementedError "image load").statusCode = 501 := by
  have hc : imageCreate parse q
      = CreateOutcome.err (ApiError.NotImplementedError "image create") := by
    simp [imageCreate, hsrc]
  refine ⟨hc, rfl, rfl, rfl, ?_, rfl, rfl, rfl, rfl⟩
  intro rat
  rw [hc]
  simp

/-- Claim C9 witness: concrete unsupported requests. -/
theorem notImplemented_verbs_witness :
    imageCreate (fun _ => Except.error "unused")
        { fromSrc := some "http://tarball", fromImage := "", tag := none }
      = CreateOutcome.err (ApiError.NotImplementedError "image create")
    ∧ imageChanges "img1" = Except.error (ApiError.NotImplementedError "image changes")
    ∧ imageGet "img2" = Except.error (ApiError.NotImplementedError "image get")
    ∧ imageLoad "img3" = Except.error (ApiError.NotImplementedError "image load")
    ∧ (∀ rat, imageCreate (fun _ => Except.error "unused")
        { fromSrc := some "http://tarball", fromImage := "", tag := none }
        ≠ CreateOutcome.pull rat)
    ∧ (ApiError.NotImplementedError "image create").statusCode = 501
    ∧ (ApiError.NotImplementedError "image changes").statusCode = 501
    ∧ (ApiError.NotImplementedError "image get").statusCode = 501
    ∧ (ApiError.NotImplementedError "image load").statusCode = 501 :=
  notImplemented_verbs (fun _ => Except.error "unused")
    { fromSrc := some "http://tarball", fromImage := "", tag := none }
    "http://tarball" "img1" "img2" "img3" rfl

/-! ## Volume resolver (spec §4.3; only the DOCKER-880 regression test is
among the sources, so the create/delete/list path is modelled from the
spec) -/

/-- Lifecycle states of a named resource (spec §3). -/
inductive VolState where
  | creating
  | ready
  | deleting
  | failed
  deriving Repr, DecidableEq

/-- Modelled from the spec: a datastore record of a named volume —
identifier, name, account scope and lifecycle state. Identifiers are
drawn from a per-store counter, so creation order is identifier order. -/
structure VolRecord where
  uuid : Nat
  name : String
  account : String
  state : VolState
  deriving Repr, DecidableEq

/-- Modelled from the spec: the backend datastore holding the volume
records, together with the fresh-identifier counter. -/
structure VolStore where
  recs : List VolRecord
  nextUuid : Nat
  deriving Repr, DecidableEq

/-- The record predicate of the resolver: same account, same name, state
ready. -/
def isReadyNamed (acct name : String) (r : VolRecord) : Bool :=
  decide (r.account = acct) && decide (r.name = name)
    && decide (r.state = VolState.ready)

/-- The records a (account, name) resolution considers: the ready ones
matching both keys. -/
def readyWithName (st : VolStore) (acct name : String) : List VolRecord :=
  st.recs.filter (isReadyNamed acct name)

/-- Modelled from the spec (§4.3 resolve): among the ready records
matching (account, name) return the single one; on an invariant violation
(several ready) pick the most recently created, i.e. the largest
identifier. -/
def resolveVol (st : VolStore) (acct name : String) : Option VolRecord :=
  match readyWithName st acct name with
  | [] => none
  | r :: rs => some (rs.foldl (fun a b => if a.uuid < b.uuid then b else a) r)

/-- Modelled from the spec (§4.3 create): append a record under a fresh
identifier that the creation job brings to `ready`, then re-resolve by
name filtered to `ready` and return that record identifier (never the
freshly written one without the confirming re-query). -/
def createVol (st : VolStore) (acct name : String) : VolStore × Option Nat :=
  let r : VolRecord :=
    { uuid := st.nextUuid, name := name, account := acct, state := VolState.ready }
  let st2 : VolStore := { recs := st.recs ++ [r], nextUuid := st.nextUuid + 1 }
  (st2, (resolveVol st2 acct name).map VolRecord.uuid)

/-- Modelled from the spec (§4.3 delete): resolve the canonical ready
record first and key the removal by the resolved identifier, never by raw
name. The `leftover` flag chooses whether the deletion job erases the row
or leaves it behind as a stale non-ready row — spec §3 demands correct
behaviour in both worlds. -/
def deleteVol (leftover : Bool) (st : VolStore) (acct name : String) :
    VolStore × Option Nat :=
  match resolveVol st acct name with
  | none => (st, none)
  | some r =>
    if leftover then
      ({ recs := st.recs.map (fun x =>
            if x.uuid = r.uuid then { x with state := VolState.deleting } else x),
         nextUuid := st.nextUuid }, some r.uuid)
    else
      ({ recs := st.recs.filter (fun x => decide (x.uuid ≠ r.uuid)),
         nextUuid := st.nextUuid }, some r.uuid)

/-- Modelled from the spec (§4.3 list): `docker volume ls` for an account
lists the names of the ready records only. -/
def listVolNames (st : VolStore) (acct : String) : List String :=
  (st.recs.filter (fun r => decide (r.account = acct)
    && decide (r.state = VolState.ready))).map VolRecord.name

/-! ## Volume resolver lemmas -/

/-- Counting a name in the `volume ls` output is measuring the ready
records carrying that (account, name). -/
theorem count_filter_map (recs : List VolRecord) (acct name : String) :
    ((recs.filter (fun r => decide (r.account = acct)
        && decide (r.state = VolState.ready))).map VolRecord.name).count name
      = (recs.filter (isReadyNamed acct name)).length := by
  induction recs with
  | nil => rfl
  | cons r t ih =>
    simp only [List.filter_cons, isReadyNamed]
    by_cases h1 : r.account = acct
    · by_cases h2 : r.state = VolState.ready
      · by_cases h3 : r.name = name
        · simp [h1, h2, h3, List.count_cons, ih]
        · simp [h1, h2, h3, List.count_cons, ih]
      · simp [h1, h2, ih]
    · simp [h1, ih]

/-- `volume ls` count against the resolver view. -/
theorem listVolNames_count (st : VolStore) (acct name : String) :
    (listVolNames st acct).count name = (readyWithName st acct name).length :=
  count_filter_map st.recs acct name

/-- Resolution when exactly one ready record matches: that record. -/
theorem resolveVol_single (st : VolStore) (acct name : String) (r : VolRecord)
    (h : readyWithName st acct name = [r]) :
    resolveVol st acct name = some r := by
  unfold resolveVol
  rw [h]
  rfl

/-- Creating into a store with no ready (account, name) record leaves
exactly the fresh record ready under that name. -/
theorem readyWithName_create (st : VolStore) (acct name : String)
    (h : readyWithName st acct name = []) :
    readyWithName (createVol st acct name).1 acct name
      = [⟨st.nextUuid, name, acct, VolState.ready⟩] := by
  unfold readyWithName at h ⊢
  unfold createVol
  simp only [List.filter_append, h, List.nil_append]
  simp [isReadyNamed]

/-- The identifier the create call returns after its confirming re-query:
the fresh counter value. -/
theorem createVol_id (st : VolStore) (acct name : String)
    (h : readyWithName st acct name = []) :
    (createVol st acct name).2 = some st.nextUuid := by
  have h1 := readyWithName_create st acct name h
  show ((resolveVol (createVol st acct name).1 acct name).map VolRecord.uuid)
      = some st.nextUuid
  rw [resolveVol_single _ acct name _ h1]
  rfl

/-- The create call bumps the identifier counter. -/
theorem createVol_nextUuid (st : VolStore) (acct name : String) :
    (createVol st acct name).1.nextUuid = st.nextUuid + 1 := rfl

/-- Deleting when exactly one ready record matches removes it from the
ready view (whether the backend erases the row or leaves a stale
non-ready row), returns its identifier, and keeps the counter. -/
theorem readyWithName_delete (b : Bool) (st : VolStore) (acct name : String)
    (r : VolRecord) (h : readyWithName st acct name = [r]) :
    readyWithName (deleteVol b st acct name).1 acct name = []
    ∧ (deleteVol b st acct name).2 = some r.uuid
    ∧ (deleteVol b st acct name).1.nextUuid = st.nextUuid := by
  have hres : resolveVol st acct name = some r := resolveVol_single st acct name r h
  have hmem : ∀ x ∈ st.recs, isReadyNamed acct name x = true → x = r := by
    intro x hx hp
    have hxx : x ∈ readyWithName st acct name :=
      List.mem_filter.mpr ⟨hx, hp⟩
    rw [h] at hxx
    simpa using hxx
  unfold deleteVol
  rw [hres]
  cases b with
  | true =>
    refine ⟨?_, rfl, rfl⟩
    show List.filter (isReadyNamed acct name)
        (st.recs.map (fun x =>
          if x.uuid = r.uuid then { x with state := VolState.deleting } else x)) = []
    rw [List.filter_eq_nil_iff]
    intro x hx
    obtain ⟨y, hy, rfl⟩ := List.mem_map.mp hx
    by_cases hu : y.uuid = r.uuid
    · simp only [hu, if_pos rfl]
      simp [isReadyNamed]
    · simp only [if_neg hu]
      intro hp
      exact hu (congrArg VolRecord.uuid (hmem y hy hp))
  | false =>
    refine ⟨?_, rfl, rfl⟩
    show List.filter (isReadyNamed acct name)
        (st.recs.filter (fun x => decide (x.uuid ≠ r.uuid))) = []
    rw [List.filter_eq_nil_iff]
    intro x hx
    have hx2 := List.mem_filter.mp hx
    intro hp
    have hxr : x = r := hmem x hx2.1 hp
    have hne : decide (x.uuid ≠ r.uuid) = true := hx2.2
    rw [hxr] at hne
    simp at hne

/-- Store after step 1 (`docker volume create --name foo`) of the
DOCKER-880 cycle. -/
def cycleS1 (st0 : VolStore) (acct name : String) : VolStore :=
  (createVol st0 acct name).1

/-- Store after step 2 (`docker volume rm foo`). -/
def cycleS2 (b1 : Bool) (st0 : VolStore) (acct name : String) : VolStore :=
  (deleteVol b1 (cycleS1 st0 acct name) acct name).1

/-- Store after step 3 (second `docker volume create --name foo`). -/
def cycleS3 (b1 : Bool) (st0 : VolStore) (acct name : String) : VolStore :=
  (createVol (cycleS2 b1 st0 acct name) acct name).1

/-- Store after step 4 (second `docker volume rm foo`). -/
def cycleS4 (b1 b2 : Bool) (st0 : VolStore) (acct name : String) : VolStore :=
  (deleteVol b2 (cycleS3 b1 st0 acct name) acct name).1

/-- Claim C2: for every account and name, starting from any store with no ready
record under that (account, name), the create → list → delete → list →
create → list → delete → list cycle shows exactly one ready-visible entry
of that name after each create and zero after each delete — never more
than one at any observation point, whether or not each deletion leaves a
stale non-ready row behind — and the two creates return distinct
identifiers. -/
theorem volume_create_delete_cycles (acct name : String) (st0 : VolStore)
    (b1 b2 : Bool) (h0 : readyWithName st0 acct name = []) :
    (listVolNames (cycleS1 st0 acct name) acct).count name = 1
    ∧ (listVolNames (cycleS2 b1 st0 acct name) acct).count name = 0
    ∧ (listVolNames (cycleS3 b1 st0 acct name) acct).count name = 1
    ∧ (listVolNames (cycleS4 b1 b2 st0 acct name) acct).count name = 0
    ∧ (createVol st0 acct name).2 = some st0.nextUuid
    ∧ (createVol (cycleS2 b1 st0 acct name) acct name).2 = some (st0.nextUuid + 1)
    ∧ (createVol st0 acct name).2 ≠ (createVol (cycleS2 b1 st0 acct name) acct name).2 := by
  unfold cycleS4 cycleS3 cycleS2 cycleS1
  have h1 : readyWithName (createVol st0 acct name).1 acct name
      = [⟨st0.nextUuid, name, acct, VolState.ready⟩] :=
    readyWithName_create st0 acct name h0
  have hd1 := readyWithName_delete b1 (createVol st0 acct name).1 acct name _ h1
  have hnext1 : (deleteVol b1 (createVol st0 acct name).1 acct name).1.nextUuid
      = st0.nextUuid + 1 := by
    rw [hd1.2.2, createVol_nextUuid]
  have h3 : readyWithName
        (createVol (deleteVol b1 (createVol st0 acct name).1 acct name).1 acct name).1
        acct name
      = [⟨st0.nextUuid + 1, name, acct, VolState.ready⟩] := by
    have hc := readyWithName_create
      (deleteVol b1 (createVol st0 acct name).1 acct name).1 acct name hd1.1
    rw [hnext1] at hc
    exact hc
  have hd2 := readyWithName_delete b2
    (createVol (deleteVol b1 (createVol st0 acct name).1 acct name).1 acct name).1
    acct name _ h3
  have hid1 : (createVol st0 acct name).2 = some st0.nextUuid :=
    createVol_id st0 acct name h0
  have hid2 : (createVol (deleteVol b1 (createVol st0 acct name).1 acct name).1
        acct name).2
      = some (st0.nextUuid + 1) := by
    have hc := createVol_id
      (deleteVol b1 (createVol st0 acct name).1 acct name).1 acct name hd1.1
    rw [hnext1] at hc
    exact hc
  refine ⟨?_, ?_, ?_, ?_, hid1, hid2, ?_⟩
  · rw [listVolNames_count, h1]
    rfl
  · rw [listVolNames_count, hd1.1]
    rfl
  · rw [listVolNames_count, h3]
    rfl
  · rw [listVolNames_count, hd2.1]
    rfl
  · rw [hid1, hid2]
    simp

/-- Claim C2 witness: concrete run of the literal DOCKER-880 scenario for
account "alice" and volume name "foo" on an empty store, with the first
deletion leaving a stale row and the second erasing its row. -/
theorem volume_create_delete_cycles_witness :
    (listVolNames (cycleS1 ⟨[], 0⟩ "alice" "foo") "alice").count "foo" = 1
    ∧ (listVolNames (cycleS2 true ⟨[], 0⟩ "alice" "foo") "alice").count "foo" = 0
    ∧ (listVolNames (cycleS3 true ⟨[], 0⟩ "alice" "foo") "alice").count "foo" = 1
    ∧ (listVolNames (cycleS4 true false ⟨[], 0⟩ "alice" "foo") "alice").count "foo" = 0
    ∧ (createVol ⟨[], 0⟩ "alice" "foo").2 = some 0
    ∧ (createVol (cycleS2 true ⟨[], 0⟩ "alice" "foo") "alice" "foo").2 = some 1
    ∧ (createVol ⟨[], 0⟩ "alice" "foo").2
        ≠ (createVol (cycleS2 true ⟨[], 0⟩ "alice" "foo") "alice" "foo").2 :=
  volume_create_delete_cycles "alice" "foo" ⟨[], 0⟩ true false rfl

end SdcDocker
